import Mathlib

/-!
Shallow embedding of `tables.py` (repository hitbox/tables): a small Flask +
SQLAlchemy application that defines a four-entity relational schema and
auto-generates HTML list/table views from the mapper metadata.  Pure parts of
the Python module are translated into executable Lean definitions; Python
exceptions are modelled with an explicit `Except PyError` result channel.
-/

set_option autoImplicit false
set_option maxRecDepth 10000

deriving instance DecidableEq for Except

namespace Tables

/-- Python runtime errors that the translated code can raise. -/
inductive PyError where
  | nameError (msg : String)
  | attributeError (msg : String)
  | typeError (msg : String)
  | keyError (key : String)
  | indexError (msg : String)
  | modelTableConversionError (msg : String)
deriving DecidableEq, Repr

/-- A Python class object as converter lookup sees it: its defining module and
its bare name (`type(column.type)` for a column). -/
structure PyType where
  module : String
  name : String
deriving DecidableEq, Repr

/-- Class `builtins.object`, the root of every Python MRO. -/
def objectT : PyType := { module := "builtins", name := "object" }

/-- Class `sqlalchemy.sql.type_api.TypeEngine`, base of all column types. -/
def TypeEngineT : PyType := { module := "sqlalchemy.sql.type_api", name := "TypeEngine" }

/-- Class `sqlalchemy.sql.sqltypes.Concatenable`, a mixin in `String`'s MRO. -/
def ConcatenableT : PyType := { module := "sqlalchemy.sql.sqltypes", name := "Concatenable" }

/-- Class `sqlalchemy.sql.sqltypes.String` (the type of `sa.String` columns). -/
def StringT : PyType := { module := "sqlalchemy.sql.sqltypes", name := "String" }

/-- Class `sqlalchemy.sql.sqltypes.Text`, a subclass of `String`. -/
def TextT : PyType := { module := "sqlalchemy.sql.sqltypes", name := "Text" }

/-- Class `sqlalchemy.sql.sqltypes.Integer` (the type of `sa.Integer` columns). -/
def IntegerT : PyType := { module := "sqlalchemy.sql.sqltypes", name := "Integer" }

/-- `inspect.getmro` for the column types involved, most specific first.  The
chains abbreviate sqlalchemy's real MROs to the classes that can matter for
converter lookup; none of the omitted intermediate class names is ever
registered as a converter key. -/
def getmro (t : PyType) : List PyType :=
  if t = TextT then [TextT, StringT, ConcatenableT, TypeEngineT, objectT]
  else if t = StringT then [StringT, ConcatenableT, TypeEngineT, objectT]
  else if t = IntegerT then [IntegerT, TypeEngineT, objectT]
  else [t, objectT]

/-- A column's `info` mapping: keys (such as `th`) to string-to-string dicts. -/
def InfoDict := List (String × List (String × String))
deriving DecidableEq, Repr

/-- A `sa.Column` as the translated code reads it: its `name`, the class of its
`.type` attribute, and its `info` dict. -/
structure ColumnDef where
  name : String
  type : PyType
  info : InfoDict
deriving DecidableEq, Repr

/-- A handler (converter) method object; `converter_for` models the optional
`_converter_for` attribute that the scan in `__init__` looks for (`none` means
the attribute is absent, so `hasattr(obj, _converter_for)` is false). -/
structure Handler where
  name : String
  converter_for : Option (List String)
deriving DecidableEq, Repr

/-- Decorator `converts` translated from the source:
`def converts(*args): def _inner(func): return func; return _inner`.
It returns the function unchanged and never records `args` anywhere. -/
def converts (args : List String) (func : Handler) : Handler := func

/-- Method `ModelTableConverter.conv_String`, decorated with
`@converts(String)`.  Because `converts` is the identity on the function, the
resulting method object carries no `_converter_for` attribute. -/
def conv_String : Handler :=
  converts ["String"] { name := "conv_String", converter_for := none }

/-- Dict membership test (`k in d`) for the converter mapping; insertion is
modelled by cons, so lookup takes the most recently inserted binding. -/
def dictContains (d : List (String × Handler)) (k : String) : Bool :=
  d.any (fun p => p.1 = k)

/-- Dict lookup `d[k]` for the converter mapping. -/
def dictGet (d : List (String × Handler)) (k : String) : Option Handler :=
  (d.find? (fun p => p.1 = k)).map (fun p => p.2)

/-- The scan in `ModelTableConverterBase.__init__`: for each method carrying a
`_converter_for` attribute, insert the method under each listed class name. -/
def scanConverters (methods : List Handler) (converters : List (String × Handler)) :
    List (String × Handler) :=
  methods.foldl
    (fun d m =>
      match m.converter_for with
      | none => d
      | some names => names.foldl (fun d2 n => (n, m) :: d2) d)
    converters

/-- The methods of a `ModelTableConverter` instance that could carry
`_converter_for` (the `dir(self)` scan finds only `conv_String`; every other
attribute lacks `_converter_for` and is skipped by the `hasattr` guard). -/
def instanceMethods : List Handler := [conv_String]

/-- The attribute state of a converter instance after `__init__`:
`use_mro` is assigned, while `converters` is `none` when the instance has no
`converters` attribute at all. -/
structure ConverterState where
  use_mro : Bool
  converters : Option (List (String × Handler))
deriving DecidableEq, Repr

/-- `ModelTableConverterBase.__init__` translated from the source.  The local
variable `converters` is defaulted to an empty dict when falsy and receives the
scanned handlers, but the method never executes `self.converters = converters`:
the scanned mapping is dropped and the instance ends up with no `converters`
attribute. -/
def ModelTableConverterBase.init (extra : Option (List (String × Handler)))
    (use_mro : Bool) : ConverterState :=
  let converters := match extra with
    | none => []
    | some d => if d.isEmpty then [] else d
  let _localOnly := scanConverters instanceMethods converters
  { use_mro := use_mro, converters := none }

/-- The value of the local `converters` dict at the end of `__init__` (visible
only inside the method; it is never stored on `self`). -/
def initLocalConverters (extra : Option (List (String × Handler))) :
    List (String × Handler) :=
  let converters := match extra with
    | none => []
    | some d => if d.isEmpty then [] else d
  scanConverters instanceMethods converters

/-- The qualified name `<module>.<typename>` with the `sqlalchemy.` head
removed, exactly as `get_converter` builds it: `type_string.startswith` and the
slice `type_string[11:]`, spelled out over character lists. -/
def qualifiedName (t : PyType) : String :=
  let s := t.module ++ "." ++ t.name
  if "sqlalchemy.".toList.isPrefixOf s.toList then String.mk (s.toList.drop 11) else s

/-- First loop of `get_converter`: walk the chain and return the handler for
the first type whose stripped qualified name is a key of the mapping. -/
def searchQualified (d : List (String × Handler)) : List PyType → Option Handler
  | [] => none
  | t :: rest =>
    if dictContains d (qualifiedName t) then dictGet d (qualifiedName t)
    else searchQualified d rest

/-- Second loop of `get_converter`: walk the chain again keyed by bare name. -/
def searchBare (d : List (String × Handler)) : List PyType → Option Handler
  | [] => none
  | t :: rest =>
    if dictContains d t.name then dictGet d t.name
    else searchBare d rest

/-- The final `raise` of `get_converter`.  Its f-string formats `types[0]` (a
class) with format spec `r`, and `type.__format__` rejects any nonempty format
spec, so constructing the message itself raises `TypeError` and the intended
`ModelTableConversionError` is never created.  (With an empty chain the
subscript `types[0]` would raise `IndexError` first.) -/
def raiseNoConverter (column : ColumnDef) (types : List PyType) : Except PyError Handler :=
  match types with
  | [] => Except.error (PyError.indexError "list index out of range")
  | _ :: _ =>
      Except.error (PyError.typeError "unsupported format string passed to type.__format__")

/-- `ModelTableConverterBase.get_converter` translated from the source.  The
module never does `import inspect`, so the `use_mro` branch raises `NameError`;
on the other branch the first membership test `type_string in self.converters`
raises `AttributeError` because `__init__` never assigned `self.converters`. -/
def get_converter (self : ConverterState) (column : ColumnDef) : Except PyError Handler :=
  if self.use_mro then
    Except.error (PyError.nameError "name 'inspect' is not defined")
  else
    let types := [column.type]
    match self.converters with
    | none =>
      match types with
      | [] => raiseNoConverter column types
      | _ :: _ =>
          Except.error
            (PyError.attributeError "'ModelTableConverter' object has no attribute 'converters'")
    | some d =>
      match searchQualified d types with
      | some h => Except.ok h
      | none =>
        match searchBare d types with
        | some h => Except.ok h
        | none => raiseNoConverter column types

/-- Decorator `converts` as the spec describes it (and as the source's scan in
`__init__` expects): it records its arguments on the function's
`_converter_for` attribute. -/
def convertsIntended (args : List String) (func : Handler) : Handler :=
  { func with converter_for := some args }

/-- `conv_String` under the intended decorator: registered for `String`. -/
def conv_String_intended : Handler :=
  convertsIntended ["String"] { name := "conv_String", converter_for := none }

/-- `__init__` as the spec describes it: the source's `__init__` with the two
slips repaired (the decorator tags handlers, and the scanned mapping is stored
as `self.converters`). -/
def initIntended (extra : Option (List (String × Handler))) (use_mro : Bool) :
    ConverterState :=
  let base := match extra with
    | none => []
    | some d => if d.isEmpty then [] else d
  { use_mro := use_mro,
    converters := some (scanConverters [conv_String_intended] base) }

/-- `get_converter` as the spec describes it: the source's lookup with the
missing `import inspect` and the missing `self.converters` assignment repaired.
The search order is the source's own: ancestry chain most specific first, first
keyed by stripped qualified name, then by bare name. -/
def get_converter_intended (self : ConverterState) (column : ColumnDef) :
    Except PyError Handler :=
  let types := if self.use_mro then getmro column.type else [column.type]
  match self.converters with
  | none =>
      Except.error
        (PyError.attributeError "'ModelTableConverter' object has no attribute 'converters'")
  | some d =>
    match searchQualified d types with
    | some h => Except.ok h
    | none =>
      match searchBare d types with
      | some h => Except.ok h
      | none => raiseNoConverter column types

/-- A mapped property as `mapper.attrs` reports it.  A column property has a
`columns` attribute and no `direction`; a relationship property has a
`direction` (whose `.name` is the direction keyword) and a referenced class,
and no `columns` attribute. -/
inductive MappedProp where
  | columnProp (key : String) (columns : List ColumnDef)
  | relationshipProp (key : String) (directionName : String) (foreignClassName : String)
deriving DecidableEq, Repr

/-- The `.key` of a mapped property. -/
def MappedProp.key : MappedProp → String
  | .columnProp k _ => k
  | .relationshipProp k _ _ => k

/-- `ModelTableConverterBase.convert` translated from the source (the unused
`model` and `mapper` pass-through arguments are omitted; they are only handed
on to the final handler call).  For a column property the first two guards
pass (it has `columns` and, in this schema, exactly one column), `converter`
stays `None`, and the final `return converter(...)` calls `None`.  For a
relationship property with no session the method raises
`ModelTableConversionError` before any handler is looked up or invoked; with a
session it reads `self.converters`, which `__init__` never assigned. -/
def convert (self : ConverterState) (prop : MappedProp)
    (field_args : Option (List (String × String))) (db_session : Option Unit) :
    Except PyError (Option Handler) :=
  match prop with
  | .columnProp _ columns =>
      if columns.length ≠ 1 then
        Except.error (PyError.typeError "Multiple-column properties not supported.")
      else
        Except.error (PyError.typeError "'NoneType' object is not callable")
  | .relationshipProp key directionName _ =>
      match db_session with
      | none =>
          Except.error
            (PyError.modelTableConversionError
              ("Cannot convert field " ++ key ++ ", need database session."))
      | some _ =>
          match self.converters with
          | none =>
              Except.error
                (PyError.attributeError
                  "'ModelTableConverter' object has no attribute 'converters'")
          | some d =>
              match dictGet d directionName with
              | none => Except.error (PyError.keyError directionName)
              | some h => Except.ok (some h)

/-- `markupsafe.escape` on one character: `&`, `<`, `>`, `"` (codepoint 34) and
the apostrophe (codepoint 39) are replaced by entities. -/
def escapeChar (c : Char) : String :=
  if c = '&' then "&amp;"
  else if c = '<' then "&lt;"
  else if c = '>' then "&gt;"
  else if c.toNat = 34 then "&#34;"
  else if c.toNat = 39 then "&#39;"
  else String.singleton c

/-- `markupsafe.escape` on a string. -/
def escape (s : String) : String :=
  String.join (s.toList.map escapeChar)

/-- `th_from_property` translated from the source: a relationship property is
labelled with the escaped name of the referenced class; a column property with
the `text` entry of the `th` entry of a nonempty `info` dict when both are
present, and with the column's `name` otherwise.  (A column property always
carries its one column, so the empty-columns branch is unreachable; in Python
`prop.columns[0]` would raise `IndexError` there.) -/
def th_from_property : MappedProp → String
  | .relationshipProp _ _ foreignClassName => escape foreignClassName
  | .columnProp _ columns =>
    match columns with
    | [] => ""
    | column :: _ =>
      if column.info.isEmpty then column.name
      else
        match (column.info.find? (fun p => p.1 = "th")).map (fun p => p.2) with
        | none => column.name
        | some thDict =>
          match (thDict.find? (fun p => p.1 = "text")).map (fun p => p.2) with
          | none => column.name
          | some text => text

/-- Header label as the spec states it: for a relationship property the name of
the referenced entity class; otherwise the explicitly declared label when one
is present in the column's metadata, and failing that the property's name. -/
def headerLabelSpec : MappedProp → String
  | .relationshipProp _ _ foreignClassName => foreignClassName
  | .columnProp key columns =>
    match columns with
    | [] => ""
    | column :: _ =>
      match (column.info.find? (fun p => p.1 = "th")).map (fun p => p.2) with
      | none => key
      | some thDict =>
        match (thDict.find? (fun p => p.1 = "text")).map (fun p => p.2) with
        | none => key
        | some text => text

/-- An attribute value read off a stored instance with `getattr`. -/
inductive Value where
  | intV (i : Int)
  | strV (s : String)
  | noneV
  | listV (items : List Value)

/-- Python `str` of a value (what `markupsafe.escape` stringifies). -/
def valueText : Value → String
  | .intV i => toString i
  | .strV s => s
  | .noneV => "None"
  | .listV _ => "[...]"

/-- `ul` translated from the source: escape each item and wrap in list tags. -/
def ul (items : List Value) : String :=
  let texts := items.map (fun it => escape (valueText it))
  "<ul>" ++ String.join (texts.map (fun text => "<li>" ++ text ++ "</li>")) ++ "</ul>"

/-- `td` translated from the source: a list/set/tuple value is rendered as
`td(ul(obj))`, and since `ul` returns `Markup`, the recursive call's
`markupsafe.escape` leaves it unchanged; any other value is escaped. -/
def td : Value → String
  | .listV items => "<td>" ++ ul items ++ "</td>"
  | v => "<td>" ++ escape (valueText v) ++ "</td>"

/-- A stored instance, as `getattr` sees it: its attribute values by key. -/
def Instance := List (String × Value)

/-- `getattr(inst, key)`; the default is unreachable for instances that carry
every mapped key (Python would raise `AttributeError`). -/
def getattr (inst : Instance) (key : String) : Value :=
  match inst.find? (fun p => p.1 = key) with
  | some p => p.2
  | none => Value.noneV

/-- A mapped entity class: its class name, its table name, and its mapped
properties in `mapper.attrs` order. -/
structure Entity where
  className : String
  tablename : String
  props : List MappedProp
deriving DecidableEq, Repr

/-- Column `Item.id`. -/
def itemIdCol : ColumnDef := { name := "id", type := IntegerT, info := [] }

/-- Column `Item.name`, with `info = dict(th=dict(text='Name'))`. -/
def itemNameCol : ColumnDef :=
  { name := "name", type := StringT, info := [("th", [("text", "Name")])] }

/-- Column `Item.price`, with `info = dict(th=dict(text='Price'))`. -/
def itemPriceCol : ColumnDef :=
  { name := "price", type := IntegerT, info := [("th", [("text", "Price")])] }

/-- Column `Account.id`. -/
def accountIdCol : ColumnDef := { name := "id", type := IntegerT, info := [] }

/-- Column `Account.name`, with `info = dict(th=dict(text='Name'))`. -/
def accountNameCol : ColumnDef :=
  { name := "name", type := StringT, info := [("th", [("text", "Name")])] }

/-- Column `Order.id`. -/
def orderIdCol : ColumnDef := { name := "id", type := IntegerT, info := [] }

/-- Column `Order.account_id` (a foreign key to `accounts.id`, hence Integer). -/
def orderAccountIdCol : ColumnDef := { name := "account_id", type := IntegerT, info := [] }

/-- Column `OrderItem.id`. -/
def orderItemIdCol : ColumnDef := { name := "id", type := IntegerT, info := [] }

/-- Column `OrderItem.order_id` (foreign key to `orders.id`). -/
def orderItemOrderIdCol : ColumnDef := { name := "order_id", type := IntegerT, info := [] }

/-- Column `OrderItem.item_id` (foreign key to `items.id`). -/
def orderItemItemIdCol : ColumnDef := { name := "item_id", type := IntegerT, info := [] }

/-- Mapped properties of `Item`: columns id, name, price. -/
def itemProps : List MappedProp :=
  [MappedProp.columnProp "id" [itemIdCol],
   MappedProp.columnProp "name" [itemNameCol],
   MappedProp.columnProp "price" [itemPriceCol]]

/-- Mapped properties of `Account`: columns id, name and the one-to-many
relationship `orders` to `Order`. -/
def accountProps : List MappedProp :=
  [MappedProp.columnProp "id" [accountIdCol],
   MappedProp.columnProp "name" [accountNameCol],
   MappedProp.relationshipProp "orders" "ONETOMANY" "Order"]

/-- Mapped properties of `Order`: columns id, account_id, the many-to-one
relationship `account` to `Account` and the many-to-many relationship `items`
to `Item` (via the `orders_items` secondary table). -/
def orderProps : List MappedProp :=
  [MappedProp.columnProp "id" [orderIdCol],
   MappedProp.columnProp "account_id" [orderAccountIdCol],
   MappedProp.relationshipProp "account" "MANYTOONE" "Account",
   MappedProp.relationshipProp "items" "MANYTOMANY" "Item"]

/-- Mapped properties of `OrderItem`: columns id, order_id, item_id. -/
def orderItemProps : List MappedProp :=
  [MappedProp.columnProp "id" [orderItemIdCol],
   MappedProp.columnProp "order_id" [orderItemOrderIdCol],
   MappedProp.columnProp "item_id" [orderItemItemIdCol]]

/-- Entity class `Item`, table `items`. -/
def Item : Entity := { className := "Item", tablename := "items", props := itemProps }

/-- Entity class `Account`, table `accounts`. -/
def Account : Entity := { className := "Account", tablename := "accounts", props := accountProps }

/-- Entity class `Order`, table `orders`. -/
def Order : Entity := { className := "Order", tablename := "orders", props := orderProps }

/-- Entity class `OrderItem`, table `orders_items`. -/
def OrderItem : Entity :=
  { className := "OrderItem", tablename := "orders_items", props := orderItemProps }

/-- All mapped properties declared by the schema's four entities. -/
def allProps : List MappedProp :=
  Item.props ++ Account.props ++ Order.props ++ OrderItem.props

/-- The table names of `Base.metadata.tables`, in schema definition order. -/
def metadataTables : List String := ["items", "accounts", "orders", "orders_items"]

/-- `Base.registry.mappers`: each mapper pairs a persist-selectable (table)
name with its mapped class.  Table names are unique, so the iteration order of
the underlying set does not affect `mapped_class_from_tablename`. -/
def registryMappers : List Entity := [Item, Account, Order, OrderItem]

/-- `mapped_class_from_tablename` translated from the source: return the class
of the first mapper whose table name matches; falling off the loop returns
Python `None`, modelled as `none`. -/
def mapped_class_from_tablename (mappers : List Entity) (tablename : String) :
    Option Entity :=
  mappers.find? (fun m => m.tablename = tablename)

/-- `flask.url_for(flask.request.endpoint, tablename=tablename)` for the
routes registered in `add_pluggables` (`/tables/` and `/tables/<tablename>`). -/
def url_for (tablename : String) : String := "/tables/" ++ tablename

/-- One iteration of the loop in `dispatch_list`: look up the mapped class and
build the link element.  When the lookup returns `None`, reading
`class_.__name__` raises `AttributeError` (unreachable here: every metadata
table has a mapper). -/
def linkElement (tablename : String) : Except PyError String :=
  match mapped_class_from_tablename registryMappers tablename with
  | none => Except.error (PyError.attributeError "'NoneType' object has no attribute '__name__'")
  | some class_ =>
      let url := url_for tablename
      let text := class_.className
      Except.ok ("<li><a href=\"" ++ url ++ "\">" ++ text ++ "</a></li>")

/-- The link elements built by `dispatch_list`, in metadata order. -/
def dispatch_list_elements : Except PyError (List String) :=
  metadataTables.mapM linkElement

/-- `MetadataView.dispatch_list` translated from the source. -/
def dispatch_list : Except PyError String := do
  let elements ← dispatch_list_elements
  return "<ul>" ++ String.join elements ++ "</ul>"

/-- The `<th>` cells of the header row, one per mapped property (the joined
`th_list` of `html_table`). -/
def th_cells (props : List MappedProp) : List String :=
  props.map (fun p => "<th>" ++ th_from_property p ++ "</th>")

/-- One body row of `html_table`: one `<td>` per column key, read off the
instance with `getattr`. -/
def body_row (column_keys : List String) (inst : Instance) : String :=
  let tds := column_keys.map (fun key => td (getattr inst key))
  "<tr>" ++ String.join tds ++ "</tr>"

/-- The `body_rows` list of `html_table`: one rendered row per instance.  (The
source also merges each instance into the session before reading attributes; a
read-only model needs no counterpart for that side effect.) -/
def body_rows (model : Entity) (instances : List Instance) : List String :=
  let column_keys := model.props.map MappedProp.key
  instances.map (body_row column_keys)

/-- `html_table` translated from the source: header row from the property
labels, then one row per instance, assembled exactly as the Python string
concatenation does. -/
def html_table (model : Entity) (instances : List Instance) : String :=
  let th_list := String.join (th_cells model.props)
  let header_row := "<tr>" ++ th_list ++ "</tr>"
  "<table><thead>" ++ header_row ++ "</thead>" ++
    "<tbody>" ++ String.join (body_rows model instances) ++ "</tbody></table>"

/-- `MetadataView.dispatch_table` translated from the source; the database is
modelled as the per-table list of stored instances that
`session.scalars(select(class_))` returns. -/
def dispatch_table (db : String → List Instance) (tablename : String) :
    Except PyError String :=
  match mapped_class_from_tablename registryMappers tablename with
  | none => Except.error (PyError.attributeError "'NoneType' object is not a mapped class")
  | some class_ =>
      let instances := db tablename
      Except.ok ("<h1>" ++ tablename ++ "</h1>" ++ html_table class_ instances)

/-- What a request handler hands back to Flask: an HTML body, or the 404
response that Flask builds from the `HTTPException` raised by
`flask.abort(404)` (caught by the framework, not escaping the request). -/
inductive Response where
  | html (body : String)
  | notFound (code : Nat)
deriving DecidableEq, Repr

/-- `MetadataView.dispatch_request` translated from the source. -/
def dispatch_request (db : String → List Instance) (tablename : Option String) :
    Except PyError Response :=
  match tablename with
  | none => Except.map Response.html dispatch_list
  | some t =>
      if t ∈ metadataTables then Except.map Response.html (dispatch_table db t)
      else Except.ok (Response.notFound 404)

/-- A row of the `accounts` table as the seed command creates it. -/
structure AccountRow where
  name : String
deriving DecidableEq, Repr

/-- A row of the `items` table as the seed command creates it. -/
structure ItemRow where
  name : String
  price : Int
deriving DecidableEq, Repr

/-- A row of the `orders` table as the seed command creates it, together with
the items attached through the `orders_items` secondary table. -/
structure OrderRow where
  account : String
  items : List String
deriving DecidableEq, Repr

/-- The persisted state the seed command manipulates. -/
structure DBState where
  accounts : List AccountRow
  items : List ItemRow
  orders : List OrderRow
deriving DecidableEq, Repr

/-- A fresh (empty) database. -/
def emptyDB : DBState := { accounts := [], items := [], orders := [] }

/-- The `init_data` CLI command translated from the source: add four accounts,
seven items and one order for account1 holding pencil and notebook, then
commit. -/
def init_data (db : DBState) : DBState :=
  { db with
    accounts := db.accounts ++
      [{ name := "account1" }, { name := "account2" },
       { name := "account3" }, { name := "account4" }],
    items := db.items ++
      [{ name := "Pencil", price := 10 }, { name := "Notebook", price := 50 },
       { name := "Eraser", price := 15 }, { name := "Straight Edge", price := 50 },
       { name := "Protractor", price := 50 }, { name := "Desk", price := 10000 },
       { name := "Chair", price := 5000 }],
    orders := db.orders ++ [{ account := "account1", items := ["Pencil", "Notebook"] }] }

/-- `model_columns` translated from the source: list the mapper's properties,
start from an empty dict, run a loop whose body is `pass`, and return the
dict. -/
def model_columns (model : Entity) : List (String × Unit) :=
  let properties := model.props
  let field_dict : List (String × Unit) := []
  properties.foldl (fun d _ => d) field_dict

/-- A class created by Python's three-argument `type(name, bases, attributes)`
call, as `model_table` builds it. -/
structure PyClass where
  name : String
  bases : List String
  attributes : List (String × Unit)
deriving DecidableEq, Repr

/-- `model_table` translated from the source: default the type name to
`<ClassName>Table`, default the bases to `(Table,)`, and use the
`model_columns` dict as the attribute mapping. -/
def model_table (model_class : Entity) (type_name : Option String)
    (bases : Option (List String)) : PyClass :=
  let type_name := match type_name with
    | none => model_class.className ++ "Table"
    | some n => n
  let bases := match bases with
    | none => ["Table"]
    | some b => b
  let attributes := model_columns model_class
  { name := type_name, bases := bases, attributes := attributes }

/-- Number of (possibly overlapping) occurrences of `pat` in a character list;
used to count link and cell markers in rendered HTML. -/
def countOccs (pat : List Char) : List Char → Nat
  | [] => 0
  | c :: rest => (if pat.isPrefixOf (c :: rest) then 1 else 0) + countOccs pat rest

/-- The HTML that `dispatch_list` produces for the four-entity schema. -/
def listBody : String :=
  "<ul><li><a href=\"/tables/items\">Item</a></li><li><a href=\"/tables/accounts\">Account</a></li><li><a href=\"/tables/orders\">Order</a></li><li><a href=\"/tables/orders_items\">OrderItem</a></li></ul>"

/-- A column of type `Text`, a strict subtype of the registered `String`; used
to exercise ancestry lookup. -/
def textCol : ColumnDef := { name := "description", type := TextT, info := [] }

/-- The converter mapping that the construction-time scan would build if the
`converts` decorator tagged its function and `__init__` stored the result. -/
def intendedConverters : List (String × Handler) :=
  scanConverters [conv_String_intended] []

/-- C1: the claim says that for every type-name a registered handler declares,
`get_converter` on a column of exactly that type returns the handler, the
construction-time scan having populated the mapping it consults.  The code
fails this three ways: `converts` leaves `conv_String` without a
`_converter_for` attribute, so the scan inserts nothing; `__init__` never
assigns `self.converters`; and `get_converter` raises `NameError` (the module
never does `import inspect`) with the default `use_mro=True`, or
`AttributeError` with `use_mro=False`.  With the three slips repaired
(`get_converter_intended` over `initIntended`) the lookup does return the
`String` handler, as the claim states. -/
theorem C1_converter_registration_code_bug :
    conv_String.converter_for = none ∧
    initLocalConverters none = [] ∧
    (ModelTableConverterBase.init none true).converters = none ∧
    get_converter (ModelTableConverterBase.init none true) itemNameCol =
      Except.error (PyError.nameError "name 'inspect' is not defined") ∧
    get_converter (ModelTableConverterBase.init none false) itemNameCol =
      Except.error
        (PyError.attributeError "'ModelTableConverter' object has no attribute 'converters'") ∧
    get_converter_intended (initIntended none true) itemNameCol =
      Except.ok conv_String_intended :=
  ⟨rfl, rfl, rfl, rfl, rfl, by decide⟩

/-- C2: the claim says `get_converter` searches the type's ancestry chain most
specific first, qualified names (with the `sqlalchemy.` head stripped) before
bare names, so a `Text` column resolves to the registered `String` handler.
On the code as written the call raises `NameError` (`inspect` is never
imported) before any search runs.  The remaining conjuncts check the claimed
order against the repaired lookup: the chain of `Text` is most specific first,
qualified names are stripped of the framework head, the qualified pass finds
nothing, and the bare-name pass resolves `Text` to the `String` handler, which
is what `get_converter_intended` returns. -/
theorem C2_lookup_order_code_bug :
    get_converter (ModelTableConverterBase.init none true) textCol =
      Except.error (PyError.nameError "name 'inspect' is not defined") ∧
    getmro TextT = [TextT, StringT, ConcatenableT, TypeEngineT, objectT] ∧
    qualifiedName StringT = "sql.sqltypes.String" ∧
    searchQualified intendedConverters (getmro TextT) = none ∧
    searchBare intendedConverters (getmro TextT) = some conv_String_intended ∧
    get_converter_intended (initIntended none true) textCol =
      Except.ok conv_String_intended := by
  refine ⟨rfl, by decide, by decide, by decide, by decide, by decide⟩

/-- C3: the claim says a column whose whole ancestry chain is unregistered
makes `get_converter` raise `ModelTableConversionError` rather than fail some
other way.  The code raises `NameError` (no `import inspect`) with the default
`use_mro=True` and `AttributeError` (no `self.converters`) otherwise; and even
with the registry repaired, the not-found `raise` formats `types[0]` with the
f-string spec `:r`, which `type.__format__` rejects, so the exhausted-chain
path raises `TypeError` instead of the intended error.  Exercised on `Item.id`
(type `Integer`, no registered ancestor). -/
theorem C3_not_found_error_code_bug :
    get_converter (ModelTableConverterBase.init none true) itemIdCol =
      Except.error (PyError.nameError "name 'inspect' is not defined") ∧
    get_converter (ModelTableConverterBase.init none false) itemIdCol =
      Except.error
        (PyError.attributeError "'ModelTableConverter' object has no attribute 'converters'") ∧
    get_converter_intended (initIntended none true) itemIdCol =
      Except.error (PyError.typeError "unsupported format string passed to type.__format__") :=
  ⟨rfl, rfl, by decide⟩

/-- C4: for every relationship-valued mapped property (one having a
`direction`), `convert` with `db_session=None` raises
`ModelTableConversionError` naming the field, whatever the converter state,
the direction, the referenced class or the field arguments — the error is
raised before any handler is looked up or invoked. -/
theorem C4_relationship_needs_session (self : ConverterState)
    (key directionName foreignClassName : String)
    (field_args : Option (List (String × String))) :
    convert self (MappedProp.relationshipProp key directionName foreignClassName)
        field_args none =
      Except.error
        (PyError.modelTableConversionError
          ("Cannot convert field " ++ key ++ ", need database session.")) :=
  rfl

/-- C5: `dispatch_request` has exactly three outcomes: no table name returns
the list of entity links, a name present in the metadata returns that entity's
rendered table, and any other name yields the locally handled 404 response —
never an escaping exception. -/
theorem C5_dispatch_three_outcomes (db : String → List Instance) (t : Option String) :
    (t = none ∧ dispatch_request db t = Except.ok (Response.html listBody)) ∨
    (∃ name class_, t = some name ∧ name ∈ metadataTables ∧
      mapped_class_from_tablename registryMappers name = some class_ ∧
      dispatch_request db t =
        Except.ok
          (Response.html ("<h1>" ++ name ++ "</h1>" ++ html_table class_ (db name)))) ∨
    (∃ name, t = some name ∧ name ∉ metadataTables ∧
      dispatch_request db t = Except.ok (Response.notFound 404)) := by
  match t with
  | none => exact Or.inl ⟨rfl, rfl⟩
  | some name =>
    by_cases h : name ∈ metadataTables
    · refine Or.inr (Or.inl ?_)
      have h' := h
      simp only [metadataTables, List.mem_cons, List.not_mem_nil, or_false] at h'
      rcases h' with rfl | rfl | rfl | rfl
      · exact ⟨"items", Item, rfl, h, rfl, rfl⟩
      · exact ⟨"accounts", Account, rfl, h, rfl, rfl⟩
      · exact ⟨"orders", Order, rfl, h, rfl, rfl⟩
      · exact ⟨"orders_items", OrderItem, rfl, h, rfl, rfl⟩
    · exact Or.inr (Or.inr ⟨name, rfl, h, by simp [dispatch_request, h]⟩)

/-- C6: the list endpoint's output holds exactly one link per schema entity —
four `<li>` elements and four anchors, with exactly one anchor text for each
of Item, Account, Order and OrderItem — with no claim about their order. -/
theorem C6_list_one_link_per_entity :
    dispatch_list = Except.ok listBody ∧
    countOccs "<li>".toList listBody.toList = 4 ∧
    countOccs "<a href=".toList listBody.toList = 4 ∧
    countOccs ">Item</a>".toList listBody.toList = 1 ∧
    countOccs ">Account</a>".toList listBody.toList = 1 ∧
    countOccs ">Order</a>".toList listBody.toList = 1 ∧
    countOccs ">OrderItem</a>".toList listBody.toList = 1 := by
  refine ⟨rfl, by decide, by decide, by decide, by decide, by decide, by decide⟩

/-- C7: for every known entity and any stored instances, the table endpoint
renders one header cell per mapped property (3 for Item, 3 for Account, 4 for
Order, 3 for OrderItem) and one body row per instance, and the page assembles
exactly those header cells and body rows. -/
theorem C7_table_header_and_row_counts (db : String → List Instance) :
    ((th_cells Item.props).length = Item.props.length ∧ Item.props.length = 3 ∧
      (body_rows Item (db "items")).length = (db "items").length ∧
      dispatch_table db "items" =
        Except.ok ("<h1>" ++ "items" ++ "</h1>" ++ html_table Item (db "items")) ∧
      html_table Item (db "items") =
        "<table><thead>" ++ ("<tr>" ++ String.join (th_cells Item.props) ++ "</tr>") ++
          "</thead>" ++ "<tbody>" ++ String.join (body_rows Item (db "items")) ++
          "</tbody></table>") ∧
    ((th_cells Account.props).length = Account.props.length ∧ Account.props.length = 3 ∧
      (body_rows Account (db "accounts")).length = (db "accounts").length ∧
      dispatch_table db "accounts" =
        Except.ok ("<h1>" ++ "accounts" ++ "</h1>" ++ html_table Account (db "accounts")) ∧
      html_table Account (db "accounts") =
        "<table><thead>" ++ ("<tr>" ++ String.join (th_cells Account.props) ++ "</tr>") ++
          "</thead>" ++ "<tbody>" ++ String.join (body_rows Account (db "accounts")) ++
          "</tbody></table>") ∧
    ((th_cells Order.props).length = Order.props.length ∧ Order.props.length = 4 ∧
      (body_rows Order (db "orders")).length = (db "orders").length ∧
      dispatch_table db "orders" =
        Except.ok ("<h1>" ++ "orders" ++ "</h1>" ++ html_table Order (db "orders")) ∧
      html_table Order (db "orders") =
        "<table><thead>" ++ ("<tr>" ++ String.join (th_cells Order.props) ++ "</tr>") ++
          "</thead>" ++ "<tbody>" ++ String.join (body_rows Order (db "orders")) ++
          "</tbody></table>") ∧
    ((th_cells OrderItem.props).length = OrderItem.props.length ∧
      OrderItem.props.length = 3 ∧
      (body_rows OrderItem (db "orders_items")).length = (db "orders_items").length ∧
      dispatch_table db "orders_items" =
        Except.ok
          ("<h1>" ++ "orders_items" ++ "</h1>" ++ html_table OrderItem (db "orders_items")) ∧
      html_table OrderItem (db "orders_items") =
        "<table><thead>" ++ ("<tr>" ++ String.join (th_cells OrderItem.props) ++ "</tr>") ++
          "</thead>" ++ "<tbody>" ++ String.join (body_rows OrderItem (db "orders_items")) ++
          "</tbody></table>") := by
  refine ⟨⟨?_, rfl, ?_, rfl, rfl⟩, ⟨?_, rfl, ?_, rfl, rfl⟩,
    ⟨?_, rfl, ?_, rfl, rfl⟩, ⟨?_, rfl, ?_, rfl, rfl⟩⟩ <;>
    simp [th_cells, body_rows]

/-- C8: for every mapped property of the schema, the rendered header label is
what the spec states: the referenced entity's class name for a relationship,
else the label declared in the column's `info` metadata when present, else the
property's name. -/
theorem C8_header_labels (p : MappedProp) (h : p ∈ allProps) :
    th_from_property p = headerLabelSpec p := by
  have hall : ∀ q ∈ allProps, th_from_property q = headerLabelSpec q := by decide
  exact hall p h

/-- Witness for C8 at the concrete property `Item.name`. -/
theorem C8_header_labels_witness :
    MappedProp.columnProp "name" [itemNameCol] ∈ allProps ∧
      th_from_property (MappedProp.columnProp "name" [itemNameCol]) =
        headerLabelSpec (MappedProp.columnProp "name" [itemNameCol]) :=
  ⟨by decide, C8_header_labels _ (by decide)⟩

/-- C9: seeding a fresh database creates exactly 4 accounts, 7 items and 1
order holding exactly 2 items; `init_data` is a function of the starting
state alone, so a second run against another fresh database reproduces the
same counts. -/
theorem C9_seed_counts :
    (init_data emptyDB).accounts.length = 4 ∧
    (init_data emptyDB).items.length = 7 ∧
    (init_data emptyDB).orders.length = 1 ∧
    (init_data emptyDB).orders.map (fun o => o.items.length) = [2] :=
  ⟨rfl, rfl, rfl, rfl⟩

/-- C10: `model_columns` returns an empty mapping for every model (its loop
body is `pass`), so every class `model_table` builds carries an empty
attribute mapping. -/
theorem C10_model_columns_empty (m : Entity) (type_name : Option String)
    (bases : Option (List String)) :
    model_columns m = [] ∧ (model_table m type_name bases).attributes = [] := by
  have hfold : ∀ l : List MappedProp,
      l.foldl (fun (d : List (String × Unit)) _ => d) [] = [] := by
    intro l
    induction l with
    | nil => rfl
    | cons a t ih => simp [List.foldl, ih]
  exact ⟨by simp [model_columns, hfold m.props],
    by simp [model_table, model_columns, hfold m.props]⟩

end Tables
